import Mathlib

/-
Shallow embedding of the Txt2img web application (src/app.py).

The application is a Flask handler that translates user text to English,
enhances the prompt, calls an external text-to-image inference endpoint
(with a single retry after a 20-second sleep when the endpoint answers
HTTP 503), decodes the returned bytes as an image, and saves the image
under `static/images/<first-10-chars-of-raw-text>_<unix-timestamp>.png`.

External effects (the HTTP posts issued by `requests.post`, PIL image
decoding, the GoogleTranslator call, `os.makedirs`, `Image.save`, and
`time.time`) are modelled by an environment `Env` of functions.  Python
exceptions raised by those effects are modelled with an explicit
`Except PyExc` channel; the `try/except` blocks of the source become
explicit matches on that channel, so the catch-all behaviour of the code
is a provable property rather than an artefact of the model.
-/

namespace Txt2img

/-- A decoded PIL image object, abstract: only its identity matters to the
control flow of app.py (`Image.open` either yields such an object or raises). -/
structure PILImage where
  id : Nat
deriving Repr, DecidableEq

/-- A Python exception, as far as the control flow of app.py distinguishes them:
`requests.exceptions.Timeout`, `requests.exceptions.RequestException`, `KeyError`
(raised on a missing form field) and any other `Exception`. -/
inductive PyExc where
  | timeoutExc
  | requestException
  | keyError (key : String)
  | otherExc (msg : String)
deriving Repr, DecidableEq

/-- An HTTP response as app.py consumes it: `response.status_code` and
`response.content` (raw bytes). -/
structure HttpResponse where
  status_code : Nat
  content : List Nat
deriving Repr, DecidableEq

/-- The fixed inference parameters of the request payload (app.py lines 54-59).
`guidance_scale` is the Python float 8.5, represented exactly as a rational. -/
structure InferenceParams where
  num_inference_steps : Nat
  guidance_scale : ℚ
  width : Nat
  height : Nat
deriving Repr, DecidableEq

/-- The JSON payload of the inference request (app.py lines 52-60). -/
structure Payload where
  inputs : String
  parameters : InferenceParams
deriving Repr, DecidableEq

/-- Build the payload sent to the inference endpoint (app.py lines 52-60). -/
def mkPayload (enhanced_prompt : String) : Payload :=
  { inputs := enhanced_prompt
    parameters :=
      { num_inference_steps := 50
        guidance_scale := 8.5
        width := 512
        height := 512 } }

/-- The external world of app.py.  `post i p` is the outcome of the i-th
`requests.post` call of one `generate_image` invocation with JSON payload `p`
(an HTTP response, or a raised exception such as a timeout); `decode` is PIL
`Image.open` on response bytes (`none` models a raised decode error);
`translate` is `GoogleTranslator(...).translate`; `makedirs` is
`os.makedirs` on the image directory; `save img path` is
`img.save(path)`; `timestamp` is `int(time.time())`. -/
structure Env where
  post : Nat → Payload → Except PyExc HttpResponse
  decode : List Nat → Option PILImage
  translate : String → String → Except PyExc String
  makedirs : Except PyExc Unit
  save : PILImage → String → Except PyExc Unit
  timestamp : Nat

/-- The fixed quality-descriptor phrases appended by `enhance_prompt`
(app.py lines 36-42). -/
def enhancements : List String :=
  ["highly detailed",
   "photorealistic",
   "8k resolution",
   "professional photography",
   "natural lighting"]

/-- Function `enhance_prompt` of app.py lines 34-43: the prompt, a comma and
a space, then the five enhancement phrases joined by comma-space. -/
def enhance_prompt (prompt : String) : String :=
  prompt ++ ", " ++ String.intercalate ", " enhancements

/-- Outcome of the body of `generate_image` before its `except` clauses:
the value the `try` block would return (or the exception escaping it),
together with the number of `requests.post` calls issued and the total
seconds spent in `time.sleep`. -/
structure ImgOutcome where
  outcome : Except PyExc (Option PILImage)
  requests : Nat
  sleptSeconds : Nat
deriving Repr

/-- Shared tail of `generate_image` (app.py lines 77-96): a non-200 status
returns `None`; otherwise the content is decoded with `Image.open`, any
decode failure being caught and mapped to `None`. -/
def finishResponse (env : Env) (response : HttpResponse) : Option PILImage :=
  if response.status_code ≠ 200 then none
  else env.decode response.content

/-- The `try` block of `generate_image` (app.py lines 46-96): post the payload;
on status 503 sleep 20 seconds and post once more (lines 72-75); then apply the
status check and decode of lines 77-96.  Exceptions raised by `requests.post`
escape this body. -/
def generate_image_body (env : Env) (prompt : String) : ImgOutcome :=
  let enhanced_prompt := enhance_prompt prompt
  let payload := mkPayload enhanced_prompt
  match env.post 0 payload with
  | .error e => ⟨.error e, 1, 0⟩
  | .ok response =>
    if response.status_code = 503 then
      match env.post 1 payload with
      | .error e => ⟨.error e, 2, 20⟩
      | .ok response2 => ⟨.ok (finishResponse env response2), 2, 20⟩
    else
      ⟨.ok (finishResponse env response), 1, 0⟩

/-- Function `generate_image` of app.py lines 45-106: the `try` body with its `except`
clauses, all of which (`Timeout`, `RequestException`, `Exception`) return
`None`.  Also returns the number of posts issued and the seconds slept. -/
def generate_image (env : Env) (prompt : String) : Option PILImage × Nat × Nat :=
  let b := generate_image_body env prompt
  match b.outcome with
  | .ok v => (v, b.requests, b.sleptSeconds)
  | .error _ => (none, b.requests, b.sleptSeconds)

/-- Function `get_translation` of app.py lines 108-116: call the external translator;
any exception is caught and mapped to `None`. -/
def get_translation (env : Env) (text : String) (source_lang : String) :
    Option String :=
  match env.translate text source_lang with
  | .ok translated => some translated
  | .error _ => none

/-- The incoming form of a POST /generate request: the optional `text` and
`language` fields. -/
structure Form where
  text : Option String
  language : Option String
deriving Repr, DecidableEq

/-- A rendered page: the form page with an error message, or with a link to
the saved image. -/
inductive Page where
  | errorPage (error : String)
  | successPage (image_path : String)
deriving Repr, DecidableEq

def translateErrorMsg : String := "Failed to translate text. Please try again."

def generateErrorMsg : String :=
  "Failed to generate image. Please try again in a few seconds."

def saveErrorMsg : String := "Failed to save generated image. Please try again."

def unexpectedErrorMsg : String := "An unexpected error occurred. Please try again."

/-- The translation line of the handler (app.py line 131):
get_translation when the language differs from en, the text itself otherwise,
paired with the number of external translation calls it performs. -/
def translationStep (env : Env) (text : String) (language : String) :
    Option String × Nat :=
  if language ≠ "en" then (get_translation env text language, 1)
  else (some text, 0)

/-- Outcome of the `try` body of the /generate handler (app.py lines 124-162):
the page it would return (or the exception escaping it), the number of external
translation calls, the number of inference posts, and the path passed to
`Image.save` when the pipeline reached the save step. -/
structure BodyOut where
  outcome : Except PyExc Page
  translationCalls : Nat
  inferenceRequests : Nat
  savedPath : Option String

/-- The `try` body of the /generate handler (app.py lines 124-162).
reading the required text field raises KeyError when it is missing;
the language field defaults to en; the falsy check
`if not translation` fires on `None` and on the empty string; `os.makedirs`
may raise (escaping to the outer handler); `Image.save` has its own
`try/except` mapping failure to the save-error page. -/
def generate_body (env : Env) (form : Form) : BodyOut :=
  match form.text with
  | none => ⟨.error (.keyError "text"), 0, 0, none⟩
  | some text =>
    let language := form.language.getD "en"
    match translationStep env text language with
    | (none, tc) => ⟨.ok (.errorPage translateErrorMsg), tc, 0, none⟩
    | (some translation, tc) =>
      if translation = "" then
        ⟨.ok (.errorPage translateErrorMsg), tc, 0, none⟩
      else
        match generate_image env translation with
        | (none, ic, _) => ⟨.ok (.errorPage generateErrorMsg), tc, ic, none⟩
        | (some generated_image, ic, _) =>
          match env.makedirs with
          | .error e => ⟨.error e, tc, ic, none⟩
          | .ok _ =>
            let filename :=
              text.take 10 ++ "_" ++ toString env.timestamp ++ ".png"
            let image_path := "static/images/" ++ filename
            match env.save generated_image image_path with
            | .error _ =>
              ⟨.ok (.errorPage saveErrorMsg), tc, ic, some image_path⟩
            | .ok _ =>
              ⟨.ok (.successPage ("/static/" ++ "images/" ++ filename)),
               tc, ic, some image_path⟩

/-- The result of one /generate request as observed from the outside:
the rendered page and the externally visible effect counters. -/
structure GenResult where
  page : Page
  translationCalls : Nat
  inferenceRequests : Nat
  savedPath : Option String
deriving Repr, DecidableEq

/-- The /generate handler (app.py lines 122-166): the `try` body wrapped in
the top-level `except Exception` that renders the generic error page. -/
def generate (env : Env) (form : Form) : GenResult :=
  let b := generate_body env form
  match b.outcome with
  | .ok page => ⟨page, b.translationCalls, b.inferenceRequests, b.savedPath⟩
  | .error _ =>
    ⟨.errorPage unexpectedErrorMsg, b.translationCalls,
     b.inferenceRequests, b.savedPath⟩


/-- Does an `Except` hold a value (no exception escaped)? -/
def isOkE {e a : Type} : Except e a → Bool
  | .ok _ => true
  | .error _ => false

/-- The handler result carries the effect counters and saved path of its body
unchanged, whichever way the body ended. -/
theorem generate_projections (env : Env) (f : Form) :
    (generate env f).translationCalls = (generate_body env f).translationCalls ∧
    (generate env f).inferenceRequests = (generate_body env f).inferenceRequests ∧
    (generate env f).savedPath = (generate_body env f).savedPath := by
  unfold generate
  cases h : (generate_body env f).outcome <;> simp [h]

/-- Claim C4: for every prompt string p, enhance_prompt p equals p followed by
the exact suffix ", highly detailed, photorealistic, 8k resolution,
professional photography, natural lighting"; the function is pure and total. -/
theorem enhance_prompt_appends_fixed_suffix (p : String) :
    enhance_prompt p =
      p ++ ", highly detailed, photorealistic, 8k resolution, professional photography, natural lighting" := by
  unfold enhance_prompt
  rw [String.append_assoc]
  exact congrArg (p ++ .) (by decide)

/-- Claim C1: if the first inference request returns HTTP 503 and, after the
fixed 20-second wait, the single retry returns HTTP 200 with bytes that decode
to an image, then generate_image returns that decoded image, exactly two
requests are issued in total, and exactly 20 seconds are slept. -/
theorem generate_image_retry_succeeds (env : Env) (prompt : String)
    (r0 r1 : HttpResponse) (img : PILImage)
    (h0 : env.post 0 (mkPayload (enhance_prompt prompt)) = .ok r0)
    (h0s : r0.status_code = 503)
    (h1 : env.post 1 (mkPayload (enhance_prompt prompt)) = .ok r1)
    (h1s : r1.status_code = 200)
    (hd : env.decode r1.content = some img) :
    generate_image env prompt = (some img, 2, 20) := by
  unfold generate_image generate_image_body finishResponse
  simp [h0, h0s, h1, h1s, hd]

def envC1 : Env :=
  { post := fun i _ => if i = 0 then .ok ⟨503, []⟩ else .ok ⟨200, [1]⟩
    decode := fun content => if content = [1] then some ⟨7⟩ else none
    translate := fun text _ => .ok text
    makedirs := .ok ()
    save := fun _ _ => .ok ()
    timestamp := 1700000000 }

theorem generate_image_retry_succeeds_witness :
    generate_image envC1 "a cat" = (some ⟨7⟩, 2, 20) :=
  generate_image_retry_succeeds envC1 "a cat" ⟨503, []⟩ ⟨200, [1]⟩ ⟨7⟩
    rfl rfl rfl rfl rfl

/-- Claim C2: if the inference endpoint returns HTTP 503 on both the original
request and the single retry, generate_image signals failure with a null
result after exactly two requests (no third request), and the /generate
pipeline reports a generation failure to the user. -/
theorem generate_image_double_503_fails (env : Env) (t : String)
    (r0 r1 : HttpResponse)
    (ht : t ≠ "")
    (h0 : env.post 0 (mkPayload (enhance_prompt t)) = .ok r0)
    (h0s : r0.status_code = 503)
    (h1 : env.post 1 (mkPayload (enhance_prompt t)) = .ok r1)
    (h1s : r1.status_code = 503) :
    generate_image env t = (none, 2, 20) ∧
    generate env ⟨some t, some "en"⟩ =
      ⟨Page.errorPage generateErrorMsg, 0, 2, none⟩ := by
  have himg : generate_image env t = (none, 2, 20) := by
    unfold generate_image generate_image_body finishResponse
    simp [h0, h0s, h1, h1s]
  refine ⟨himg, ?_⟩
  unfold generate generate_body translationStep
  simp [himg, ht]

def envC2 : Env :=
  { post := fun _ _ => .ok ⟨503, []⟩
    decode := fun _ => none
    translate := fun text _ => .ok text
    makedirs := .ok ()
    save := fun _ _ => .ok ()
    timestamp := 1700000000 }

theorem generate_image_double_503_fails_witness :
    generate_image envC2 "a dog" = (none, 2, 20) ∧
    generate envC2 ⟨some "a dog", some "en"⟩ =
      ⟨Page.errorPage generateErrorMsg, 0, 2, none⟩ :=
  generate_image_double_503_fails envC2 "a dog" ⟨503, []⟩ ⟨503, []⟩
    (by decide) rfl rfl rfl rfl

/-- Claim C3: for every text t, when the source language code equals "en" the
translation step returns t unchanged and performs zero external
translation-service calls, and a whole /generate request with language "en"
performs zero translation calls. -/
theorem translation_en_identity (env : Env) (t : String) :
    translationStep env t "en" = (some t, 0) ∧
    (generate env ⟨some t, some "en"⟩).translationCalls = 0 := by
  have hstep : translationStep env t "en" = (some t, 0) := by
    simp [translationStep]
  refine ⟨hstep, ?_⟩
  rw [(generate_projections env ⟨some t, some "en"⟩).1]
  unfold generate_body
  simp only [Option.getD_some]
  rw [hstep]
  dsimp only
  repeat' (first | rfl | split)

/-- Claim C10: if the submitted text is the empty string and the language code
is "en", the handler reports the translation-failure error page and makes no
translation call and no inference call: the identity-translated empty string
trips the falsy check even though no translation was attempted. -/
theorem empty_text_en_reports_translation_failure (env : Env) :
    generate env ⟨some "", some "en"⟩ =
      ⟨Page.errorPage translateErrorMsg, 0, 0, none⟩ := by
  unfold generate generate_body translationStep
  simp

/-- Claim C8: a POST /generate request whose form lacks the required text
field is rejected with an error page before any external network call:
zero translation calls and zero inference requests are made. -/
theorem missing_text_rejected (env : Env) (form : Form)
    (h : form.text = none) :
    generate env form = ⟨Page.errorPage unexpectedErrorMsg, 0, 0, none⟩ := by
  rcases form with ⟨t, l⟩
  cases h
  unfold generate generate_body
  simp

def envC8 : Env :=
  { post := fun _ _ => .ok ⟨200, [1]⟩
    decode := fun _ => some ⟨7⟩
    translate := fun text _ => .ok text
    makedirs := .ok ()
    save := fun _ _ => .ok ()
    timestamp := 1700000000 }

theorem missing_text_rejected_witness :
    generate envC8 ⟨none, none⟩ =
      ⟨Page.errorPage unexpectedErrorMsg, 0, 0, none⟩ :=
  missing_text_rejected envC8 ⟨none, none⟩ rfl

/-- Claim C9: the /generate handler never lets an exception propagate to the
transport layer: whenever the body of the handler ends with an exception, the
top-level handler renders the generic user-facing failure page. -/
theorem handler_catches_all (env : Env) (form : Form) (e : PyExc)
    (h : (generate_body env form).outcome = .error e) :
    (generate env form).page = Page.errorPage unexpectedErrorMsg := by
  unfold generate
  simp [h]

def envC9 : Env :=
  { post := fun _ _ => .ok ⟨200, [1]⟩
    decode := fun _ => some ⟨7⟩
    translate := fun text _ => .ok text
    makedirs := .error (.otherExc "OSError")
    save := fun _ _ => .ok ()
    timestamp := 1700000000 }

theorem handler_catches_all_witness :
    (generate envC9 ⟨some "hi", some "en"⟩).page =
      Page.errorPage unexpectedErrorMsg :=
  handler_catches_all envC9 ⟨some "hi", some "en"⟩ (.otherExc "OSError") rfl

/-- Claim C5: for every raw input text and timestamp, when the pipeline
reaches the save step the saved filename is the first 10 characters of the
raw (untranslated) input text, then an underscore, then the timestamp, then
".png", under the fixed directory static/images. -/
theorem saved_filename_spec (env : Env) (t : String) (img : PILImage)
    (ht : t ≠ "")
    (himg : (generate_image env t).1 = some img)
    (hmk : env.makedirs = .ok ()) :
    (generate env ⟨some t, some "en"⟩).savedPath =
      some ("static/images/" ++
        (t.take 10 ++ "_" ++ toString env.timestamp ++ ".png")) := by
  rw [(generate_projections env ⟨some t, some "en"⟩).2.2]
  have hstep : translationStep env t "en" = (some t, 0) := by
    simp [translationStep]
  unfold generate_body
  simp only [Option.getD_some]
  rw [hstep]
  dsimp only
  rw [if_neg ht]
  rcases hgi : generate_image env t with ⟨i, ic, sl⟩
  rw [hgi] at himg
  dsimp only at himg
  subst himg
  dsimp only
  rw [hmk]
  dsimp only
  split <;> rfl

def envC5 : Env :=
  { post := fun _ _ => .ok ⟨200, [1]⟩
    decode := fun _ => some ⟨7⟩
    translate := fun text _ => .ok text
    makedirs := .ok ()
    save := fun _ _ => .ok ()
    timestamp := 1700000000 }

theorem saved_filename_spec_witness :
    (generate envC5 ⟨some "Hello World this is long", some "en"⟩).savedPath =
      some "static/images/Hello Worl_1700000000.png" := by
  have h := saved_filename_spec envC5 "Hello World this is long" ⟨7⟩
    (by decide) rfl rfl
  rw [h]
  rfl

/-- Claim C6: if the inference endpoint responds HTTP 200 but the body cannot
be decoded as an image, generate_image signals failure via a null result
(not an exception) and the pipeline reports a generation failure. -/
theorem http200_bad_bytes_fails (env : Env) (t : String) (r0 : HttpResponse)
    (ht : t ≠ "")
    (h0 : env.post 0 (mkPayload (enhance_prompt t)) = .ok r0)
    (h0s : r0.status_code = 200)
    (hd : env.decode r0.content = none) :
    generate_image env t = (none, 1, 0) ∧
    generate env ⟨some t, some "en"⟩ =
      ⟨Page.errorPage generateErrorMsg, 0, 1, none⟩ := by
  have himg : generate_image env t = (none, 1, 0) := by
    unfold generate_image generate_image_body finishResponse
    simp [h0, h0s, hd]
  refine ⟨himg, ?_⟩
  unfold generate generate_body translationStep
  simp [himg, ht]

def envC6 : Env :=
  { post := fun _ _ => .ok ⟨200, [9]⟩
    decode := fun _ => none
    translate := fun text _ => .ok text
    makedirs := .ok ()
    save := fun _ _ => .ok ()
    timestamp := 1700000000 }

theorem http200_bad_bytes_fails_witness :
    generate_image envC6 "a fox" = (none, 1, 0) ∧
    generate envC6 ⟨some "a fox", some "en"⟩ =
      ⟨Page.errorPage generateErrorMsg, 0, 1, none⟩ :=
  http200_bad_bytes_fails envC6 "a fox" ⟨200, [9]⟩ (by decide) rfl rfl rfl

/-- Claim C7: generate_image is total over its failure channel: any exception
of the request layer (timeout, transport error) escaping its try body is
caught and mapped to a null result, and every outcome is either a null result
or an image decoded from an HTTP 200 response of one of the at most two
requests; no error codes are surfaced to the caller. -/
theorem generate_image_single_failure_channel (env : Env) (prompt : String) :
    (isOkE (generate_image_body env prompt).outcome = false →
        (generate_image env prompt).1 = none) ∧
    ((generate_image env prompt).1 = none ∨
      ∃ i r img, i ≤ 1 ∧
        env.post i (mkPayload (enhance_prompt prompt)) = .ok r ∧
        r.status_code = 200 ∧ env.decode r.content = some img ∧
        (generate_image env prompt).1 = some img) := by
  constructor
  · intro h
    rcases hb : (generate_image_body env prompt).outcome with e | v
    · unfold generate_image
      simp [hb]
    · rw [hb] at h
      simp [isOkE] at h
  · rcases h0 : env.post 0 (mkPayload (enhance_prompt prompt)) with e | r0
    · left
      unfold generate_image generate_image_body
      simp [h0]
    · by_cases h503 : r0.status_code = 503
      · rcases h1 : env.post 1 (mkPayload (enhance_prompt prompt)) with e | r1
        · left
          unfold generate_image generate_image_body
          simp [h0, h1, h503]
        · by_cases h200 : r1.status_code = 200
          · rcases hd : env.decode r1.content with _ | img
            · left
              unfold generate_image generate_image_body finishResponse
              simp [h0, h1, h503, h200, hd]
            · right
              refine ⟨1, r1, img, by omega, h1, h200, hd, ?_⟩
              unfold generate_image generate_image_body finishResponse
              simp [h0, h1, h503, h200, hd]
          · left
            unfold generate_image generate_image_body finishResponse
            simp [h0, h1, h503, h200]
      · by_cases h200 : r0.status_code = 200
        · rcases hd : env.decode r0.content with _ | img
          · left
            unfold generate_image generate_image_body finishResponse
            simp [h0, h503, h200, hd]
          · right
            refine ⟨0, r0, img, by omega, h0, h200, hd, ?_⟩
            unfold generate_image generate_image_body finishResponse
            simp [h0, h503, h200, hd]
        · left
          unfold generate_image generate_image_body finishResponse
          simp [h0, h503, h200]

def envC7 : Env :=
  { post := fun _ _ => .error .timeoutExc
    decode := fun _ => none
    translate := fun text _ => .ok text
    makedirs := .ok ()
    save := fun _ _ => .ok ()
    timestamp := 0 }

theorem generate_image_single_failure_channel_witness :
    (generate_image envC7 "p").1 = none :=
  (generate_image_single_failure_channel envC7 "p").1 rfl

end Txt2img
